import Mathlib

/-!
Verification of the symmetry-aware balloon-grid reconstruction core of the
gll-wordpress-plugin repository (`src/shared/balloon-utils.ts` and
`src/shared/polar-utils.js`).

Modelling conventions:
* JavaScript numbers that are only added, compared, scaled and rounded
  (angles, steps, SPL levels, colors) are modelled as rationals `ℚ`;
  a level-array entry that may be absent or non-finite (NaN/Infinity or a
  non-number) is `Option ℚ` with `none` for the non-finite case.
* Frequency values flow through `Math.pow(2, i/bandsPerOctave)` and are
  modelled as reals `ℝ` (entries `Option ℝ`, `none` = non-finite).
* The duck-typed field lookups of the source (`Responses`/`responses`,
  `Levels`/`Level`/`level`, `MeridianStep`/`meridian_step`, ...) always
  resolve the same logical field; the model uses one canonical field for
  each.  Absent JS fields are `Option.none`; JS falsiness of a numeric
  field is `none` or `some 0`.
* `Math.round x` is `⌊x + 1/2⌋` (ties toward +∞, exact on rationals),
  JS `%` is the truncated remainder, division by zero (which yields
  NaN/Infinity in JS) only occurs in the JS code on paths the theorems
  do not rely on.
* The module-level `WeakMap` cache of `balloon-utils.ts` is modelled by
  explicit state passing: an association list keyed by a source identity.
-/

namespace Gll

/-- JavaScript truncation toward zero, as used by the `%` operator. -/
def jsTrunc (q : ℚ) : ℤ :=
  if 0 ≤ q then ⌊q⌋ else ⌈q⌉

/-- JavaScript remainder `a % b` (sign of the dividend).  For `b = 0`
JavaScript yields NaN; the model returns `a`, a case never exercised here
because the only modulus used is the constant 360. -/
def jsFmod (a b : ℚ) : ℚ :=
  a - b * (jsTrunc (a / b) : ℚ)

/-- JavaScript `Math.round`: half-up rounding, ties toward `+∞`. -/
def jsRound (q : ℚ) : ℤ :=
  ⌊q + 1 / 2⌋

/-- Azimuth normalization `((a % 360) + 360) % 360` from
`getResponseWithSymmetry`. -/
def normalizeAzimuth (a : ℚ) : ℚ :=
  jsFmod (jsFmod a 360 + 360) 360

/-- One measured response: per-frequency levels indexed by a shared
frequency axis (`Frequencies` mirrors the duck-typed
`Frequencies`/`frequencies` field, `Level` the `Levels`/`Level`/`level`
field). -/
structure Response where
  Frequencies : List (Option ℝ)
  Level : List (Option ℚ)

/-- Angular-resolution metadata of a source's balloon data. -/
structure AngularResolution where
  MeridianStep : Option ℚ
  ParallelStep : Option ℚ
  Symmetry : Option ℤ
  FrontHalfOnly : Bool
deriving DecidableEq

/-- Balloon-data node (`Definition.BalloonData`). -/
structure BalloonData where
  AngularResolution : Option AngularResolution
deriving DecidableEq

/-- Log-frequency definition of an on-axis spectrum. -/
structure FrequencyDefinition where
  bands_per_octave : Option ℚ
  start_freq : Option ℚ
  point_count : Option ℚ
deriving DecidableEq

/-- On-axis reference spectrum (`Definition.OnAxisSpectrum`). -/
structure OnAxisSpectrum where
  definition : Option FrequencyDefinition
  Level : Option (List (Option ℚ))

/-- Source definition node. -/
structure SourceDefinition where
  BalloonData : Option BalloonData
  OnAxisSpectrum : Option OnAxisSpectrum

/-- A parsed GLL source: definition metadata plus the stored responses. -/
structure GllSource where
  Definition : Option SourceDefinition
  Responses : List Response

/-- Grid information record returned by `getBalloonGrid`
(`BalloonGridInfo` in `balloon-utils.ts`). -/
structure BalloonGridInfo where
  meridianCount : ℕ
  parallelCount : ℕ
  symmetry : ℤ
  frontHalfOnly : Bool
  measuredMeridianDeg : ℚ
  measuredParallelDeg : ℚ
  meridianStep : ℚ
  parallelStep : ℚ
  responseCount : ℕ
  fullMeridianCount : ℕ
  fullParallelCount : ℕ
  symmetryName : String
deriving DecidableEq

/-- The angular-resolution metadata reachable from a source
(`source?.Definition?.BalloonData?.AngularResolution`). -/
def angularResolutionOf (source : GllSource) : Option AngularResolution :=
  (source.Definition.bind SourceDefinition.BalloonData).bind BalloonData.AngularResolution

/-- Symmetry-name table of `getBalloonGrid`; a JS out-of-range index reads
`undefined`, replaced by `"Unknown"` via `||`. -/
def symmetryNameOf (symmetry : ℤ) : String :=
  if symmetry < 0 then "Unknown"
  else (List.get? ["None", "Vertical", "Horizontal", "Quarter", "Axial"] symmetry.toNat).getD "Unknown"

/-- Grid Descriptor Resolver `getBalloonGrid` from `polar-utils.js`.
Returns `none` when the angular-resolution metadata is absent or either
step is JS-falsy (absent or zero). -/
def getBalloonGrid (source : GllSource) : Option BalloonGridInfo :=
  match angularResolutionOf source with
  | none => none
  | some ang =>
    match ang.MeridianStep, ang.ParallelStep with
    | some meridianStep, some parallelStep =>
      if meridianStep = 0 ∨ parallelStep = 0 then none
      else
        let symmetry := ang.Symmetry.getD 0
        let frontHalfOnly := ang.FrontHalfOnly
        let fullMeridianCount := (max 1 (jsRound (360 / meridianStep))).toNat
        let fullParallelCount := (max 1 (jsRound (180 / parallelStep) + 1)).toNat
        let meridianCount :=
          if symmetry = 4 then 1
          else if symmetry = 3 then (max 1 (jsRound (90 / meridianStep) + 1)).toNat
          else if symmetry = 1 ∨ symmetry = 2 then (max 1 (jsRound (180 / meridianStep) + 1)).toNat
          else fullMeridianCount
        let parallelCount :=
          if frontHalfOnly then (max 1 (jsRound (90 / parallelStep) + 1)).toNat
          else fullParallelCount
        some
          { meridianCount := meridianCount
            parallelCount := parallelCount
            symmetry := symmetry
            frontHalfOnly := frontHalfOnly
            measuredMeridianDeg := ((meridianCount : ℚ) - 1) * meridianStep
            measuredParallelDeg := ((parallelCount : ℚ) - 1) * parallelStep
            meridianStep := meridianStep
            parallelStep := parallelStep
            responseCount := source.Responses.length
            fullMeridianCount := fullMeridianCount
            fullParallelCount := fullParallelCount
            symmetryName := symmetryNameOf symmetry }
    | _, _ => none

/-- Pole-deduplicating flat index `balloonResponseIndex` (identical in
`balloon-utils.ts` and `polar-utils.js`).  The JS function is typed
`number | null` but never returns `null`; indices are JS numbers, modelled
as integers. -/
def balloonResponseIndex (meridianIdx parallelIdx : ℤ) (parallelCount : ℤ)
    (frontHalfOnly : Bool) : ℤ :=
  let lastParIdx := parallelCount - 1
  if parallelIdx = 0 ∨ (parallelIdx = lastParIdx ∧ frontHalfOnly = false) then parallelIdx
  else if meridianIdx = 0 then parallelIdx
  else
    let skippedPerMer : ℤ := if frontHalfOnly then 1 else 2
    let pointsPerMer := parallelCount - skippedPerMer
    parallelCount + (meridianIdx - 1) * pointsPerMer + (parallelIdx - 1)

/-- Azimuth symmetry folding block of `getResponseWithSymmetry`
(codes: 4 Axial, 3 Quarter, 1 Vertical, 2 Horizontal, otherwise None). -/
def applySymmetryFold (symmetry : ℤ) (a : ℚ) : ℚ :=
  if symmetry = 4 then 0
  else if symmetry = 3 then
    if 270 ≤ a then 360 - a
    else if 180 ≤ a then a - 180
    else if 90 ≤ a then 180 - a
    else a
  else if symmetry = 1 then
    if 180 ≤ a then 360 - a else a
  else if symmetry = 2 then
    let b := a - 90
    if b < 0 then -b
    else if 180 ≤ b then 360 - b
    else b
  else a

/-- Symmetry-Aware Response Locator `getResponseWithSymmetry` from
`balloon-utils.ts`.  The `polar-utils.js` copy adds a redundant re-check
that the angular-resolution metadata exists, which holds whenever the grid
argument was produced by `getBalloonGrid` on the same source. -/
def getResponseWithSymmetry (source : GllSource) (grid : BalloonGridInfo)
    (azimuthDeg parallelDeg : ℚ) : Option Response :=
  let responses := source.Responses
  if responses.length = 0 then none
  else
    let lookupAzimuth := applySymmetryFold grid.symmetry (normalizeAzimuth azimuthDeg)
    if parallelDeg < 0 ∨ 180 < parallelDeg then none
    else if grid.frontHalfOnly = true ∧ 90 < parallelDeg then none
    else
      let lookupParallel? : Option ℚ :=
        if grid.measuredParallelDeg < parallelDeg then
          if grid.symmetry = 2 ∨ grid.symmetry = 3 then
            if 180 - parallelDeg ≤ grid.measuredParallelDeg then some (180 - parallelDeg)
            else none
          else none
        else some parallelDeg
      match lookupParallel? with
      | none => none
      | some lookupParallel =>
        let meridianIdx := jsRound (lookupAzimuth / grid.meridianStep)
        let parallelIdx := jsRound (lookupParallel / grid.parallelStep)
        if meridianIdx < 0 ∨ (grid.meridianCount : ℤ) ≤ meridianIdx ∨
            parallelIdx < 0 ∨ (grid.parallelCount : ℤ) ≤ parallelIdx then none
        else
          let responseIndex :=
            balloonResponseIndex meridianIdx parallelIdx (grid.parallelCount : ℤ)
              grid.frontHalfOnly
          if 0 ≤ responseIndex ∧ responseIndex < (responses.length : ℤ) then
            responses.get? responseIndex.toNat
          else none

/-- One step of the level scan of `computeGlobalMaxLevel`: skip
non-finite entries, keep the strict maximum seen so far (`none` plays the
role of the initial `-Infinity`). -/
def scanLevelStep (acc : Option ℚ) (entry : Option ℚ) : Option ℚ :=
  match entry with
  | some level =>
    match acc with
    | none => some level
    | some m => if m < level then some level else some m
  | none => acc

/-- The full scan of `computeGlobalMaxLevel`: maximum finite level over
every response and every frequency position, defaulting to 0 when no
finite level exists (the `-Infinity` fallback branch). -/
def scanGlobalMax (source : GllSource) : ℚ :=
  (source.Responses.foldl (fun acc r => r.Level.foldl scanLevelStep acc) none).getD 0

/-- Global Extremum Cache state: the module-level `WeakMap` keyed by
source object identity, modelled as an association list keyed by a
caller-chosen source identity. -/
def GlobalMaxCache := List (ℕ × ℚ)

/-- Stateful `computeGlobalMaxLevel`: return the cached value when the
source identity is present, otherwise scan and memoize. -/
def computeGlobalMaxLevel (cache : GlobalMaxCache) (sourceId : ℕ)
    (source : GllSource) : ℚ × GlobalMaxCache :=
  match List.lookup sourceId cache with
  | some v => (v, cache)
  | none =>
    let v := scanGlobalMax source
    (v, (sourceId, v) :: cache)

/-- Cache invalidation `clearGlobalMaxCache`: drop the entry for one
source identity. -/
def clearGlobalMaxCache (cache : GlobalMaxCache) (sourceId : ℕ) : GlobalMaxCache :=
  cache.filter (fun e => e.1 != sourceId)

/-- Full-Sphere Grid Builder `buildFullSphereLevels`: one row per parallel
of the full sphere, one entry per meridian, `-100` for unresolvable points
or missing/non-finite levels. -/
def buildFullSphereLevels (source : GllSource) (grid : BalloonGridInfo)
    (frequencyIndex : ℕ) : List (List ℚ) :=
  (List.range grid.fullParallelCount).map fun (pIdx : ℕ) =>
    (List.range grid.fullMeridianCount).map fun (mIdx : ℕ) =>
      match getResponseWithSymmetry source grid ((mIdx : ℚ) * grid.meridianStep)
          ((pIdx : ℚ) * grid.parallelStep) with
      | some response =>
        match response.Level.get? frequencyIndex with
        | some (some level) => level
        | _ => -100
      | none => -100

/-- Spherical-to-cartesian conversion of `balloon-utils.ts` (GLL Z-up to
Three.js Y-up). -/
noncomputable def sphericalToCartesian (radius parallelRad azimuthRad : ℝ) :
    ℝ × ℝ × ℝ :=
  (radius * Real.sin parallelRad * Real.cos azimuthRad,
   radius * Real.cos parallelRad,
   radius * Real.sin parallelRad * Real.sin azimuthRad)

/-- HSL-based color map `levelToColor` (hue `(1-normalized)*0.66`,
saturation 0.75, lightness 0.5). -/
def levelToColor (normalized : ℚ) : ℚ × ℚ × ℚ :=
  let hue := (1 - normalized) * (66 / 100)
  let saturation : ℚ := 3 / 4
  let lightness : ℚ := 1 / 2
  let c := (1 - |2 * lightness - 1|) * saturation
  let x := c * (1 - |jsFmod (hue * 6) 2 - 1|)
  let m := lightness - c / 2
  let h6 := hue * 6
  let rgb : ℚ × ℚ × ℚ :=
    if h6 < 1 then (c, x, 0)
    else if h6 < 2 then (x, c, 0)
    else if h6 < 3 then (0, c, x)
    else if h6 < 4 then (0, x, c)
    else if h6 < 5 then (x, 0, c)
    else (c, 0, x)
  (rgb.1 + m, rgb.2.1 + m, rgb.2.2 + m)

/-- Build options of `buildBalloonGeometryData`. -/
structure BalloonBuildOptions where
  frequencyIndex : ℕ
  dbRange : ℚ
  scale : ℚ

/-- Geometry buffers produced by `buildBalloonGeometryData`. -/
structure BalloonGeometryData where
  vertices : List ℝ
  colors : List ℚ
  indices : List ℕ
  globalMax : ℚ
  displayMin : ℚ
  displayMax : ℚ

/-- Normalized display level at a vertex of the sphere mesh: the loop-body
expression `Math.max(0, Math.min(1, (level - displayMin) / dbRange))`,
reading `levels[min pIdx (P-1)][mIdx % M]` with `displayMin` fallback. -/
def balloonVertexNormalized (levels : List (List ℚ)) (fullParallelCount fullMeridianCount : ℕ)
    (displayMin dbRange : ℚ) (pIdx mIdx : ℕ) : ℚ :=
  let level :=
    ((levels.get? (min pIdx (fullParallelCount - 1))).bind
      (fun row => row.get? (mIdx % fullMeridianCount))).getD displayMin
  max 0 (min 1 ((level - displayMin) / dbRange))

/-- Position triple of one mesh vertex (`vertices.push(pos.x, pos.y, pos.z)`).
In JS, `fullParallelCount = 1` makes `parallelRad` a NaN via `0/0`; the
model's division by zero yields 0 instead, a path no theorem depends on. -/
noncomputable def balloonVertexPosition (levels : List (List ℚ))
    (fullParallelCount fullMeridianCount : ℕ) (displayMin dbRange scale : ℚ)
    (pIdx mIdx : ℕ) : List ℝ :=
  let parallelRad := ((pIdx : ℝ) / ((fullParallelCount : ℝ) - 1)) * Real.pi
  let azimuthRad := ((mIdx : ℝ) / (fullMeridianCount : ℝ)) * (2 * Real.pi)
  let normalized := balloonVertexNormalized levels fullParallelCount fullMeridianCount
    displayMin dbRange pIdx mIdx
  let radius := (3 / 10 : ℚ) * scale + (9 / 10 : ℚ) * scale * normalized
  let pos := sphericalToCartesian (radius : ℝ) parallelRad azimuthRad
  [pos.1, pos.2.1, pos.2.2]

/-- Color triple of one mesh vertex (`colors.push(color.r, color.g, color.b)`). -/
def balloonVertexColor (levels : List (List ℚ))
    (fullParallelCount fullMeridianCount : ℕ) (displayMin dbRange : ℚ)
    (pIdx mIdx : ℕ) : List ℚ :=
  let color := levelToColor (balloonVertexNormalized levels fullParallelCount
    fullMeridianCount displayMin dbRange pIdx mIdx)
  [color.1, color.2.1, color.2.2]

/-- Mesh/Geometry Assembler `buildBalloonGeometryData`.  The single JS
loop pushes positions and colors for rows `0 ≤ pIdx ≤ P-1` and columns
`0 ≤ mIdx ≤ M` (one wrap column); the model emits the same flat arrays as
two equal-order traversals.  `globalMax` is the cache-transparent value of
`computeGlobalMaxLevel` (the scan result memoized by the `WeakMap`). -/
noncomputable def buildBalloonGeometryData (source : GllSource)
    (options : BalloonBuildOptions) : Option BalloonGeometryData :=
  match getBalloonGrid source with
  | none => none
  | some grid =>
    let levels := buildFullSphereLevels source grid options.frequencyIndex
    let globalMax := scanGlobalMax source
    let displayMin := globalMax - options.dbRange
    let P := grid.fullParallelCount
    let M := grid.fullMeridianCount
    let vertices := (List.range P).flatMap fun pIdx =>
      (List.range (M + 1)).flatMap fun mIdx =>
        balloonVertexPosition levels P M displayMin options.dbRange options.scale pIdx mIdx
    let colors := (List.range P).flatMap fun pIdx =>
      (List.range (M + 1)).flatMap fun mIdx =>
        balloonVertexColor levels P M displayMin options.dbRange pIdx mIdx
    let meridianVertCount := M + 1
    let indices := (List.range (P - 1)).flatMap fun pIdx =>
      (List.range M).flatMap fun mIdx =>
        let current := pIdx * meridianVertCount + mIdx
        let next := current + meridianVertCount
        [current, next, current + 1, current + 1, next, next + 1]
    some
      { vertices := vertices
        colors := colors
        indices := indices
        globalMax := globalMax
        displayMin := displayMin
        displayMax := globalMax }

/-- Polar-plot angle enumeration `buildPolarAngles`: `0`, then negative
angles descending to `-180`, then positive angles descending from
`180 - step` to just above 0.  The JS loops diverge for a non-positive
step (never used; the only call site passes 10); the model returns the
loop results in closed form for positive steps. -/
def buildPolarAngles (stepDeg : ℚ) : List ℚ :=
  if stepDeg ≤ 0 then [0]
  else
    [0] ++
      (List.range (⌊180 / stepDeg⌋).toNat).map (fun (i : ℕ) => -(((i : ℚ) + 1) * stepDeg)) ++
      (List.range (⌈180 / stepDeg⌉ - 1).toNat).map (fun (i : ℕ) => 180 - ((i : ℚ) + 1) * stepDeg)

/-- Polar chart label formatting `formatPolarLabel`. -/
def formatPolarLabel (angleDeg : ℚ) : String :=
  let normalized := jsFmod (angleDeg + 180) 360 - 180
  if |normalized| = 180 then "±180°"
  else if |normalized| < 1 / 1000000 then "0°"
  else toString normalized ++ "°"

/-- Log-frequency reconstruction `buildLogFrequencies`.  `countOverride`
models `onAxis?.level?.length`; the JS `Array.from({length})` truncates a
fractional length, hence `⌊·⌋.toNat`. -/
noncomputable def buildLogFrequencies (definition : Option FrequencyDefinition)
    (countOverride : Option ℕ) : Option (List (Option ℝ)) :=
  match definition with
  | none => none
  | some defn =>
    match defn.bands_per_octave, defn.start_freq with
    | some bandsPerOctave, some startFreq =>
      if bandsPerOctave = 0 ∨ startFreq = 0 then none
      else
        let count : Option ℚ :=
          match countOverride with
          | some n => if 0 < n then some (n : ℚ) else defn.point_count
          | none => defn.point_count
        match count with
        | none => none
        | some c =>
          if c ≤ 0 then none
          else
            some ((List.range (⌊c⌋.toNat)).map fun (i : ℕ) =>
              some ((startFreq : ℝ) * (2 : ℝ) ^ ((i : ℝ) / (bandsPerOctave : ℝ))))
    | _, _ => none

/-- Element-wise frequency comparison `frequenciesMatch`: equal lengths,
all entries finite, and relative error `|a-b| / max 1 |b|` at most `1e-3`. -/
def frequenciesMatch (a b : List (Option ℝ)) : Prop :=
  a.length = b.length ∧
    ∀ i, i < a.length →
      ∃ av bv, a.get? i = some (some av) ∧ b.get? i = some (some bv) ∧
        |av - bv| / max 1 |bv| ≤ 1 / 1000

/-- On-axis spectrum node of a source (`def?.OnAxisSpectrum`). -/
def onAxisOf (source : GllSource) : Option OnAxisSpectrum :=
  source.Definition.bind SourceDefinition.OnAxisSpectrum

/-- The on-axis level array `onAxis?.level || onAxis?.Level || []`. -/
def onAxisLevelList (source : GllSource) : List (Option ℚ) :=
  ((onAxisOf source).bind OnAxisSpectrum.Level).getD []

/-- The reconstructed on-axis frequency axis, with the level-array length
as count override. -/
noncomputable def onAxisFreqs (source : GllSource) : Option (List (Option ℝ)) :=
  buildLogFrequencies ((onAxisOf source).bind OnAxisSpectrum.definition)
    (((onAxisOf source).bind OnAxisSpectrum.Level).map List.length)

/-- The first response's frequency array
(`sampleResponse?.Frequencies || sampleResponse?.frequencies || []`). -/
def sampleFreqsOf (source : GllSource) : List (Option ℝ) :=
  ((source.Responses.head?).map Response.Frequencies).getD []

/-- The `canCombineOnAxis` condition of `computePolarSlices`, including
the source's self-comparison `onAxisLevel.length === onAxisLevel.length`
(trivially true, kept for fidelity). -/
def canCombineOnAxis (source : GllSource) : Prop :=
  onAxisOf source ≠ none ∧
    0 < (onAxisLevelList source).length ∧
    ∃ freqs, onAxisFreqs source = some freqs ∧
      source.Responses ≠ [] ∧
      (sampleFreqsOf source).length = freqs.length ∧
      (onAxisLevelList source).length = (onAxisLevelList source).length ∧
      frequenciesMatch (sampleFreqsOf source) freqs

/-- Raw slice level `(response?.Level || [])[freqIndex]`: `none` when the
lookup failed or the index is out of range, `some none` for a stored
non-finite entry, `some (some x)` for a finite one. -/
def polarRawLevel (source : GllSource) (grid : BalloonGridInfo)
    (meridianDeg parallelDeg : ℚ) (freqIndex : ℕ) : Option (Option ℚ) :=
  (match getResponseWithSymmetry source grid meridianDeg parallelDeg with
   | some r => r.Level
   | none => ([] : List (Option ℚ))).get? freqIndex

open Classical

/-- One pushed slice entry of `computePolarSlices`:
`canCombine && isFinite(h) ? h + onAxisLevel[freqIndex] : (h ?? null)`.
A JS sum with an absent or non-finite on-axis entry is NaN (`some none`);
an undefined raw level collapses to null (`none`) via `?? null`. -/
noncomputable def polarSliceEntry (source : GllSource) (grid : BalloonGridInfo)
    (freqIndex : ℕ) (meridianDeg parallelDeg : ℚ) : Option (Option ℚ) :=
  match polarRawLevel source grid meridianDeg parallelDeg freqIndex with
  | some (some x) =>
    if canCombineOnAxis source then
      some (match (onAxisLevelList source).get? freqIndex with
            | some (some y) => some (x + y)
            | _ => none)
    else some (some x)
  | some none => some none
  | none => none

/-- Horizontal series of `computePolarSlices`. -/
structure PolarHorizontal where
  levels : List (Option (Option ℚ))
  meridianDeg : ℚ

/-- Vertical series of `computePolarSlices`. -/
structure PolarVertical where
  levels : List (Option (Option ℚ))
  meridianDeg : ℚ
  maxParallel : ℚ
  canMirrorParallel : Bool

/-- Metadata block of `computePolarSlices`. -/
structure PolarMeta where
  usesOnAxis : Prop
  symmetry : ℤ
  symmetryName : String
  frontHalfOnly : Bool
  measuredMeridianDeg : ℚ
  measuredParallelDeg : ℚ
  stepDeg : ℚ

/-- Result record of `computePolarSlices`. -/
structure PolarSlices where
  labels : List String
  horizontal : PolarHorizontal
  vertical : PolarVertical
  meta : PolarMeta

/-- Polar Slice Extractor `computePolarSlices`: horizontal slice at
meridian 90/270, vertical slice at meridian 0/180, over the fixed
10-degree angle enumeration. -/
noncomputable def computePolarSlices (source : GllSource) (freqIndex : ℕ) :
    Option PolarSlices :=
  match getBalloonGrid source with
  | none => none
  | some grid =>
    let stepDeg : ℚ := 10
    let angles := buildPolarAngles stepDeg
    some
      { labels := angles.map formatPolarLabel
        horizontal :=
          { levels := angles.map fun angle =>
              polarSliceEntry source grid freqIndex (if 0 ≤ angle then 90 else 270) |angle|
            meridianDeg := 90 }
        vertical :=
          { levels := angles.map fun angle =>
              polarSliceEntry source grid freqIndex (if 0 ≤ angle then 0 else 180) |angle|
            meridianDeg := 0
            maxParallel := grid.measuredParallelDeg
            canMirrorParallel := decide (grid.symmetry = 2 ∨ grid.symmetry = 3) }
        meta :=
          { usesOnAxis := canCombineOnAxis source
            symmetry := grid.symmetry
            symmetryName := grid.symmetryName
            frontHalfOnly := grid.frontHalfOnly
            measuredMeridianDeg := grid.measuredMeridianDeg
            measuredParallelDeg := grid.measuredParallelDeg
            stepDeg := stepDeg } }

/-- Casting the clamped counts of `getBalloonGrid` back to `ℤ` recovers
the `max 1 (...)` expression. -/
lemma toNat_max_one_cast (x : ℤ) : (((max 1 x).toNat : ℕ) : ℤ) = max 1 x :=
  Int.toNat_of_nonneg (by omega)

/-- C2: for Quarter symmetry (code 3) the azimuth folding of
`getResponseWithSymmetry` maps every normalized azimuth in `[0,360)` into
`[0,90]` by the three reflections `≥270 → 360-a`, `≥180 → a-180`,
`≥90 → 180-a`, leaving `a < 90` unchanged; in particular azimuth 260
folds to 80. -/
theorem quarter_fold_spec (a : ℚ) (h0 : 0 ≤ a) (h1 : a < 360) :
    (270 ≤ a → applySymmetryFold 3 a = 360 - a) ∧
    (180 ≤ a → a < 270 → applySymmetryFold 3 a = a - 180) ∧
    (90 ≤ a → a < 180 → applySymmetryFold 3 a = 180 - a) ∧
    (a < 90 → applySymmetryFold 3 a = a) ∧
    0 ≤ applySymmetryFold 3 a ∧ applySymmetryFold 3 a ≤ 90 ∧
    applySymmetryFold 3 260 = 80 := by
  have h260 : applySymmetryFold 3 260 = 80 := by norm_num [applySymmetryFold]
  refine ⟨?_, ?_, ?_, ?_, ?_, ?_, h260⟩ <;>
  · unfold applySymmetryFold
    norm_num
    split_ifs <;> intros <;> linarith

/-- Witness for C2 at azimuth 260. -/
theorem quarter_fold_spec_witness :
    0 ≤ (260 : ℚ) ∧ (260 : ℚ) < 360 ∧ applySymmetryFold 3 260 = 80 := by
  refine ⟨by norm_num, by norm_num, ?_⟩
  exact (quarter_fold_spec 260 (by norm_num) (by norm_num)).2.2.2.2.2.2

/-- C3: the grid descriptor of `getBalloonGrid` satisfies
`fullMeridianCount = max 1 (round (360/meridianStep))`,
`fullParallelCount = max 1 (round (180/parallelStep) + 1)` (37 for step 5),
the symmetry-dependent `meridianCount` formulas (each floored at 1), and
`parallelCount = round (90/parallelStep) + 1` when front-half-only, else
`fullParallelCount`. -/
theorem getBalloonGrid_counts (source : GllSource) (g : BalloonGridInfo)
    (h : getBalloonGrid source = some g) :
    (g.fullMeridianCount : ℤ) = max 1 (jsRound (360 / g.meridianStep)) ∧
    (g.fullParallelCount : ℤ) = max 1 (jsRound (180 / g.parallelStep) + 1) ∧
    (g.parallelStep = 5 → g.fullParallelCount = 37) ∧
    (g.symmetry = 4 → g.meridianCount = 1) ∧
    (g.symmetry = 3 → (g.meridianCount : ℤ) = max 1 (jsRound (90 / g.meridianStep) + 1)) ∧
    (g.symmetry = 1 ∨ g.symmetry = 2 →
      (g.meridianCount : ℤ) = max 1 (jsRound (180 / g.meridianStep) + 1)) ∧
    (¬ (g.symmetry = 1 ∨ g.symmetry = 2 ∨ g.symmetry = 3 ∨ g.symmetry = 4) →
      g.meridianCount = g.fullMeridianCount) ∧
    (g.frontHalfOnly = true → (g.parallelCount : ℤ) = max 1 (jsRound (90 / g.parallelStep) + 1)) ∧
    (g.frontHalfOnly = false → g.parallelCount = g.fullParallelCount) := by
  unfold getBalloonGrid at h
  split at h
  · exact absurd h (by simp)
  · split at h
    · split at h
      · exact absurd h (by simp)
      · simp only [Option.some.injEq] at h
        subst h
        simp only
        refine ⟨toNat_max_one_cast _, toNat_max_one_cast _, ?_, ?_, ?_, ?_, ?_, ?_, ?_⟩
        · intro h5
          rw [h5]
          norm_num [jsRound]
          decide
        · intro h4
          rw [if_pos h4]
        · intro h3
          split_ifs <;> first | exact toNat_max_one_cast _ | omega
        · intro h12
          split_ifs <;> first | exact toNat_max_one_cast _ | tauto | omega
        · intro hnone
          push_neg at hnone
          obtain ⟨h1, h2, h3, h4⟩ := hnone
          split_ifs <;> first | rfl | tauto
        · intro hfh
          rw [hfh]
          simp only [if_true]
          exact toNat_max_one_cast _
        · intro hfh
          rw [hfh]
          simp only [Bool.false_eq_true, if_false]
    · exact absurd h (by simp)

/-- Witness angular resolution: 10-degree meridians, 5-degree parallels,
no symmetry, full sphere. -/
def wAngNone : AngularResolution :=
  { MeridianStep := some 10, ParallelStep := some 5, Symmetry := some 0, FrontHalfOnly := false }

/-- Witness source carrying only grid metadata. -/
def wSourceNone : GllSource :=
  { Definition := some { BalloonData := some { AngularResolution := some wAngNone }, OnAxisSpectrum := none }
    Responses := [] }

/-- The grid descriptor `getBalloonGrid` produces for `wSourceNone`. -/
def wGridNone : BalloonGridInfo :=
  { meridianCount := 36
    parallelCount := 37
    symmetry := 0
    frontHalfOnly := false
    measuredMeridianDeg := 350
    measuredParallelDeg := 180
    meridianStep := 10
    parallelStep := 5
    responseCount := 0
    fullMeridianCount := 36
    fullParallelCount := 37
    symmetryName := "None" }

/-- Evaluation of the grid descriptor on the witness source. -/
lemma wGridNone_eval : getBalloonGrid wSourceNone = some wGridNone := by
  unfold getBalloonGrid angularResolutionOf wSourceNone wAngNone wGridNone
  norm_num [jsRound, symmetryNameOf, show Int.toNat 36 = 36 from rfl,
    show Int.toNat 37 = 37 from rfl]

/-- Witness for C3: the 10/5-degree full-sphere grid resolves and has 37
full parallels. -/
theorem getBalloonGrid_counts_witness :
    getBalloonGrid wSourceNone = some wGridNone ∧ wGridNone.fullParallelCount = 37 :=
  ⟨wGridNone_eval,
    (getBalloonGrid_counts wSourceNone wGridNone wGridNone_eval).2.2.1 rfl⟩

/-- Generic form of `balloonResponseIndex` with the per-meridian pole-skip
count as an integer parameter (`s = 1` for front-half-only data, `s = 2`
for full spheres). -/
def briGen (m p P s : ℤ) : ℤ :=
  if p = 0 ∨ (p = P - 1 ∧ s = 2) then p
  else if m = 0 then p
  else P + (m - 1) * (P - s) + (p - 1)

/-- The source's `balloonResponseIndex` agrees with its generic form. -/
lemma balloonResponseIndex_eq_briGen (m p P : ℤ) (fho : Bool) :
    balloonResponseIndex m p P fho = briGen m p P (if fho then 1 else 2) := by
  cases fho <;> simp [balloonResponseIndex, briGen]

/-- Uniqueness of block decomposition: quotient/remainder pairs with the
remainder below the block size are determined by their combined value. -/
lemma block_decomp_inj (K a b x y : ℤ) (hx : 0 ≤ x) (hxK : x < K)
    (hy : 0 ≤ y) (hyK : y < K) (h : a * K + x = b * K + y) : a = b ∧ x = y := by
  have hK : 0 < K := lt_of_le_of_lt hx hxK
  have hab : a = b := by
    rcases lt_trichotomy a b with hlt | heq | hgt
    · exfalso
      have h1 : (a + 1) * K ≤ b * K := mul_le_mul_of_nonneg_right (by omega) (le_of_lt hK)
      have h2 : (a + 1) * K = a * K + K := by ring
      omega
    · exact heq
    · exfalso
      have h1 : (b + 1) * K ≤ a * K := mul_le_mul_of_nonneg_right (by omega) (le_of_lt hK)
      have h2 : (b + 1) * K = b * K + K := by ring
      omega
  subst hab
  omega

/-- Collisions of the generic pole-deduplicating index happen exactly at
identified poles. -/
lemma briGen_inj (M P s : ℤ) (hs : s = 1 ∨ s = 2) (hP : 2 ≤ P)
    (m p m2 p2 : ℤ) (hm0 : 0 ≤ m) (hmM : m < M) (hp0 : 0 ≤ p) (hpP : p < P)
    (hm20 : 0 ≤ m2) (hm2M : m2 < M) (hp20 : 0 ≤ p2) (hp2P : p2 < P)
    (hne : ¬ (m = m2 ∧ p = p2)) :
    briGen m p P s = briGen m2 p2 P s ↔ p = p2 ∧ (p = 0 ∨ (p = P - 1 ∧ s = 2)) := by
  constructor
  · intro heq
    unfold briGen at heq
    by_cases hq : p = 0 ∨ (p = P - 1 ∧ s = 2)
    · by_cases hq2 : p2 = 0 ∨ (p2 = P - 1 ∧ s = 2)
      · rw [if_pos hq, if_pos hq2] at heq
        exact ⟨heq, hq⟩
      · exfalso
        rw [if_pos hq, if_neg hq2] at heq
        by_cases hm2 : m2 = 0
        · rw [if_pos hm2] at heq
          omega
        · rw [if_neg hm2] at heq
          have hnn : 0 ≤ (m2 - 1) * (P - s) := mul_nonneg (by omega) (by omega)
          omega
    · by_cases hq2 : p2 = 0 ∨ (p2 = P - 1 ∧ s = 2)
      · exfalso
        rw [if_neg hq, if_pos hq2] at heq
        by_cases hm : m = 0
        · rw [if_pos hm] at heq
          omega
        · rw [if_neg hm] at heq
          have hnn : 0 ≤ (m - 1) * (P - s) := mul_nonneg (by omega) (by omega)
          omega
      · exfalso
        rw [if_neg hq, if_neg hq2] at heq
        by_cases hm : m = 0 <;> by_cases hm2 : m2 = 0
        · rw [if_pos hm, if_pos hm2] at heq
          exact hne ⟨by omega, heq⟩
        · rw [if_pos hm, if_neg hm2] at heq
          have hnn : 0 ≤ (m2 - 1) * (P - s) := mul_nonneg (by omega) (by omega)
          omega
        · rw [if_neg hm, if_pos hm2] at heq
          have hnn : 0 ≤ (m - 1) * (P - s) := mul_nonneg (by omega) (by omega)
          omega
        · rw [if_neg hm, if_neg hm2] at heq
          have hstep : (m - 1) * (P - s) + (p - 1) = (m2 - 1) * (P - s) + (p2 - 1) := by
            omega
          have := block_decomp_inj (P - s) (m - 1) (m2 - 1) (p - 1) (p2 - 1)
            (by omega) (by omega) (by omega) (by omega) hstep
          exact hne ⟨by omega, by omega⟩
  · rintro ⟨hpp, hpole⟩
    subst hpp
    unfold briGen
    rw [if_pos hpole, if_pos hpole]

/-- The generic pole-deduplicating index stays inside the stored-response
range. -/
lemma briGen_bounds (M P s : ℤ) (hs : s = 1 ∨ s = 2) (hM : 1 ≤ M) (hP : 2 ≤ P)
    (m p : ℤ) (hm0 : 0 ≤ m) (hmM : m < M) (hp0 : 0 ≤ p) (hpP : p < P) :
    0 ≤ briGen m p P s ∧ briGen m p P s < P + (M - 1) * (P - s) := by
  unfold briGen
  have hnn : 0 ≤ (M - 1) * (P - s) := mul_nonneg (by omega) (by omega)
  split_ifs with h1 h2
  · omega
  · omega
  · have h3 : (m - 1) * (P - s) ≤ (M - 2) * (P - s) :=
      mul_le_mul_of_nonneg_right (by omega) (by omega)
    have h4 : (M - 2) * (P - s) + (P - s) = (M - 1) * (P - s) := by ring
    have h5 : 0 ≤ (m - 1) * (P - s) := mul_nonneg (by omega) (by omega)
    omega

/-- Every index of the stored-response range is hit by the generic
pole-deduplicating index. -/
lemma briGen_surj (M P s : ℤ) (hs : s = 1 ∨ s = 2) (hM : 1 ≤ M) (hP : 2 ≤ P)
    (i : ℤ) (hi0 : 0 ≤ i) (hiT : i < P + (M - 1) * (P - s)) :
    ∃ m p, 0 ≤ m ∧ m < M ∧ 0 ≤ p ∧ p < P ∧ briGen m p P s = i := by
  by_cases hiP : i < P
  · refine ⟨0, i, le_refl 0, by omega, hi0, hiP, ?_⟩
    unfold briGen
    split_ifs <;> omega
  · push_neg at hiP
    have hK : 0 < P - s := by
      by_contra hKn
      push_neg at hKn
      have : (M - 1) * (P - s) ≤ 0 := mul_nonpos_of_nonneg_of_nonpos (by omega) hKn
      omega
    have hj0 : 0 ≤ i - P := by omega
    have hjlt : i - P < (M - 1) * (P - s) := by omega
    have hdm : (P - s) * ((i - P) / (P - s)) + (i - P) % (P - s) = i - P :=
      Int.ediv_add_emod (i - P) (P - s)
    have hr0 : 0 ≤ (i - P) % (P - s) := Int.emod_nonneg (i - P) (by omega)
    have hrK : (i - P) % (P - s) < P - s := Int.emod_lt_of_pos (i - P) hK
    have hcomm : (P - s) * ((i - P) / (P - s)) = ((i - P) / (P - s)) * (P - s) :=
      mul_comm _ _
    have hq0 : 0 ≤ (i - P) / (P - s) := Int.ediv_nonneg hj0 (by omega)
    have hqM : (i - P) / (P - s) < M - 1 := by
      by_contra hge
      push_neg at hge
      have h1 : (M - 1) * (P - s) ≤ ((i - P) / (P - s)) * (P - s) :=
        mul_le_mul_of_nonneg_right hge (by omega)
      omega
    refine ⟨(i - P) / (P - s) + 1, (i - P) % (P - s) + 1, by omega, by omega, by omega,
      by omega, ?_⟩
    unfold briGen
    split_ifs with h1 h2
    · exfalso
      omega
    · exfalso
      omega
    · have hring : ((i - P) / (P - s) + 1 - 1) * (P - s) = ((i - P) / (P - s)) * (P - s) := by
        ring
      omega

/-- C10: for meridianCount ≥ 1 and parallelCount ≥ 2 the pole-deduplicating
index map `balloonResponseIndex` is injective on in-range index pairs up to
pole identification — two distinct pairs collide exactly when they share a
pole parallel index (0, or `parallelCount-1` when not front-half-only) —
and its values cover exactly the contiguous range
`[0, parallelCount + (meridianCount-1) * (parallelCount - skippedPerMer))`. -/
theorem balloonResponseIndex_bijection (M P : ℤ) (fho : Bool)
    (hM : 1 ≤ M) (hP : 2 ≤ P) :
    (∀ m p m2 p2, 0 ≤ m → m < M → 0 ≤ p → p < P →
      0 ≤ m2 → m2 < M → 0 ≤ p2 → p2 < P → ¬ (m = m2 ∧ p = p2) →
      (balloonResponseIndex m p P fho = balloonResponseIndex m2 p2 P fho ↔
        p = p2 ∧ (p = 0 ∨ (p = P - 1 ∧ fho = false)))) ∧
    (∀ m p, 0 ≤ m → m < M → 0 ≤ p → p < P →
      0 ≤ balloonResponseIndex m p P fho ∧
        balloonResponseIndex m p P fho < P + (M - 1) * (P - (if fho then 1 else 2))) ∧
    (∀ i, 0 ≤ i → i < P + (M - 1) * (P - (if fho then 1 else 2)) →
      ∃ m p, 0 ≤ m ∧ m < M ∧ 0 ≤ p ∧ p < P ∧ balloonResponseIndex m p P fho = i) := by
  cases fho with
  | false =>
    refine ⟨?_, ?_, ?_⟩
    · intro m p m2 p2 hm0 hmM hp0 hpP hm20 hm2M hp20 hp2P hne
      have := briGen_inj M P 2 (Or.inr rfl) hP m p m2 p2 hm0 hmM hp0 hpP
        hm20 hm2M hp20 hp2P hne
      simpa [balloonResponseIndex_eq_briGen] using this
    · intro m p hm0 hmM hp0 hpP
      have := briGen_bounds M P 2 (Or.inr rfl) hM hP m p hm0 hmM hp0 hpP
      simpa [balloonResponseIndex_eq_briGen] using this
    · intro i hi0 hiT
      have := briGen_surj M P 2 (Or.inr rfl) hM hP i hi0 (by simpa using hiT)
      simpa [balloonResponseIndex_eq_briGen] using this
  | true =>
    refine ⟨?_, ?_, ?_⟩
    · intro m p m2 p2 hm0 hmM hp0 hpP hm20 hm2M hp20 hp2P hne
      have := briGen_inj M P 1 (Or.inl rfl) hP m p m2 p2 hm0 hmM hp0 hpP
        hm20 hm2M hp20 hp2P hne
      simpa [balloonResponseIndex_eq_briGen] using this
    · intro m p hm0 hmM hp0 hpP
      have := briGen_bounds M P 1 (Or.inl rfl) hM hP m p hm0 hmM hp0 hpP
      simpa [balloonResponseIndex_eq_briGen] using this
    · intro i hi0 hiT
      have := briGen_surj M P 1 (Or.inl rfl) hM hP i hi0 (by simpa using hiT)
      simpa [balloonResponseIndex_eq_briGen] using this

/-- Witness for C10 at meridianCount 3, parallelCount 4, full sphere. -/
theorem balloonResponseIndex_bijection_witness :
    (1 : ℤ) ≤ 3 ∧ (2 : ℤ) ≤ 4 ∧
      (∀ i, 0 ≤ i → i < 4 + ((3 : ℤ) - 1) * (4 - (if false then 1 else 2)) →
        ∃ m p, 0 ≤ m ∧ m < 3 ∧ 0 ≤ p ∧ p < 4 ∧
          balloonResponseIndex m p 4 false = i) := by
  refine ⟨by norm_num, by norm_num, ?_⟩
  exact (balloonResponseIndex_bijection 3 4 false (by norm_num) (by norm_num)).2.2

/-- Angular resolution with a negative meridian step: JS truthiness lets
it through the `!meridianStep` guard. -/
def cAngNeg : AngularResolution :=
  { MeridianStep := some (-5), ParallelStep := some 5, Symmetry := some 0, FrontHalfOnly := false }

/-- Source whose metadata carries the negative meridian step. -/
def cSourceNeg : GllSource :=
  { Definition := some { BalloonData := some { AngularResolution := some cAngNeg }, OnAxisSpectrum := none }
    Responses := [] }

/-- Counterexample to C9 as stated: a meridian step of `-5` is ≤ 0, yet
`getBalloonGrid` returns a grid descriptor rather than "unavailable"
(the JS guard `!meridianStep` only rejects 0/NaN/missing). -/
theorem gridUnavailable_counterexample :
    ∃ ang, angularResolutionOf cSourceNeg = some ang ∧
      ang.MeridianStep = some (-5) ∧ (-5 : ℚ) ≤ 0 ∧
      (getBalloonGrid cSourceNeg).isSome = true := by
  refine ⟨cAngNeg, rfl, rfl, by norm_num, ?_⟩
  unfold getBalloonGrid angularResolutionOf cSourceNeg cAngNeg
  norm_num

/-- C9 (amended): `getBalloonGrid` returns "unavailable" exactly when the
angular-resolution metadata is absent or a step is missing or zero
(JS-falsy; negative steps are accepted), and both
`buildBalloonGeometryData` and `computePolarSlices` short-circuit to
`none` on an unavailable descriptor. -/
theorem gridUnavailable_spec (source : GllSource) (options : BalloonBuildOptions)
    (freqIndex : ℕ) :
    (getBalloonGrid source = none ↔
      angularResolutionOf source = none ∨
        ∃ ang, angularResolutionOf source = some ang ∧
          (ang.MeridianStep = none ∨ ang.MeridianStep = some 0 ∨
            ang.ParallelStep = none ∨ ang.ParallelStep = some 0)) ∧
    (getBalloonGrid source = none →
      buildBalloonGeometryData source options = none ∧
        computePolarSlices source freqIndex = none) := by
  constructor
  · unfold getBalloonGrid
    cases hang : angularResolutionOf source with
    | none => simp
    | some ang =>
      simp only [Option.some.injEq]
      cases hms : ang.MeridianStep with
      | none => simp [hms]
      | some ms =>
        cases hps : ang.ParallelStep with
        | none => simp [hms, hps]
        | some ps =>
          simp only
          by_cases hz : ms = 0 ∨ ps = 0
          · rw [if_pos hz]
            simp only [true_iff]
            exact Or.inr ⟨ang, rfl, by rcases hz with h | h <;> simp [hms, hps, h]⟩
          · rw [if_neg hz]
            push_neg at hz
            constructor
            · intro hfalse
              exact absurd hfalse (by simp)
            · rintro (hnone | ⟨ang2, hang2, hbad⟩)
              · exact absurd hnone (by simp)
              · subst hang2
                rcases hbad with h | h | h | h
                · rw [hms] at h
                  exact absurd h (by simp)
                · rw [hms, Option.some.injEq] at h
                  exact absurd h hz.1
                · rw [hps] at h
                  exact absurd h (by simp)
                · rw [hps, Option.some.injEq] at h
                  exact absurd h hz.2
  · intro hnone
    constructor
    · unfold buildBalloonGeometryData
      rw [hnone]
    · unfold computePolarSlices
      rw [hnone]

/-- Source with no definition metadata at all. -/
def cSourceEmpty : GllSource :=
  { Definition := none, Responses := [] }

/-- Witness for C9 (amended): the metadata-free source resolves to no grid
and the downstream builders return `none`. -/
theorem gridUnavailable_spec_witness :
    getBalloonGrid cSourceEmpty = none ∧
      buildBalloonGeometryData cSourceEmpty { frequencyIndex := 0, dbRange := 40, scale := 1 } = none ∧
      computePolarSlices cSourceEmpty 0 = none := by
  have h := gridUnavailable_spec cSourceEmpty { frequencyIndex := 0, dbRange := 40, scale := 1 } 0
  have hnone : getBalloonGrid cSourceEmpty = none := h.1.mpr (Or.inl rfl)
  exact ⟨hnone, (h.2 hnone).1, (h.2 hnone).2⟩

/-- All finite level values of a source, across every response and every
frequency position. -/
def finiteLevels (source : GllSource) : List ℚ :=
  (source.Responses.flatMap Response.Level).filterMap id

/-- Scanning a level list skips the non-finite entries. -/
lemma foldl_scan_filterMap (L : List (Option ℚ)) (acc : Option ℚ) :
    L.foldl scanLevelStep acc =
      (L.filterMap id).foldl (fun a x => scanLevelStep a (some x)) acc := by
  induction L generalizing acc with
  | nil => rfl
  | cons hd tl ih =>
    cases hd with
    | none => simpa [scanLevelStep] using ih acc
    | some x => simpa using ih (scanLevelStep acc (some x))

/-- The response-by-response scan equals the scan of the flattened finite
level list. -/
lemma foldl_scan_responses (rs : List Response) (acc : Option ℚ) :
    rs.foldl (fun acc r => r.Level.foldl scanLevelStep acc) acc =
      ((rs.flatMap Response.Level).filterMap id).foldl
        (fun a x => scanLevelStep a (some x)) acc := by
  induction rs generalizing acc with
  | nil => rfl
  | cons hd tl ih =>
    simp only [List.foldl_cons, List.flatMap_cons, List.filterMap_append, List.foldl_append]
    rw [ih, foldl_scan_filterMap]

/-- A finite-level fold only grows its accumulator. -/
lemma foldl_max_acc_le (L : List ℚ) (a v : ℚ)
    (h : L.foldl (fun a x => scanLevelStep a (some x)) (some a) = some v) : a ≤ v := by
  induction L generalizing a with
  | nil => simp_all [scanLevelStep]
  | cons x tl ih =>
    simp only [List.foldl_cons, scanLevelStep] at h
    by_cases hx : a < x
    · rw [if_pos hx] at h
      exact le_of_lt (lt_of_lt_of_le hx (ih x h))
    · rw [if_neg hx] at h
      exact ih a h

/-- A finite-level fold starting from `some` stays `some`. -/
lemma foldl_max_isSome (L : List ℚ) (a : ℚ) :
    ∃ v, L.foldl (fun a x => scanLevelStep a (some x)) (some a) = some v := by
  induction L generalizing a with
  | nil => exact ⟨a, rfl⟩
  | cons x tl ih =>
    simp only [List.foldl_cons, scanLevelStep]
    by_cases hx : a < x
    · rw [if_pos hx]
      exact ih x
    · rw [if_neg hx]
      exact ih a

/-- The fold result is an element of the list or the initial accumulator. -/
lemma foldl_max_mem (L : List ℚ) (acc : Option ℚ) (v : ℚ)
    (h : L.foldl (fun a x => scanLevelStep a (some x)) acc = some v) :
    acc = some v ∨ v ∈ L := by
  induction L generalizing acc with
  | nil => exact Or.inl h
  | cons x tl ih =>
    simp only [List.foldl_cons] at h
    rcases ih (scanLevelStep acc (some x)) h with hacc | hmem
    · cases acc with
      | none =>
        simp only [scanLevelStep, Option.some.injEq] at hacc
        exact Or.inr (by rw [← hacc]; exact List.mem_cons_self x tl)
      | some a =>
        simp only [scanLevelStep] at hacc
        by_cases hx : a < x
        · rw [if_pos hx, Option.some.injEq] at hacc
          exact Or.inr (by rw [← hacc]; exact List.mem_cons_self x tl)
        · rw [if_neg hx] at hacc
          exact Or.inl hacc
    · exact Or.inr (List.mem_cons_of_mem x hmem)

/-- The fold result bounds every element of the list. -/
lemma foldl_max_ub (L : List ℚ) (acc : Option ℚ) (v : ℚ)
    (h : L.foldl (fun a x => scanLevelStep a (some x)) acc = some v) :
    ∀ x ∈ L, x ≤ v := by
  induction L generalizing acc with
  | nil => intro x hx; exact absurd hx (List.not_mem_nil x)
  | cons y tl ih =>
    intro x hx
    simp only [List.foldl_cons] at h
    rcases List.mem_cons.mp hx with hxy | hxtl
    · have hsome : ∃ b, scanLevelStep acc (some y) = some b ∧ y ≤ b := by
        cases acc with
        | none => exact ⟨y, rfl, le_refl y⟩
        | some a =>
          simp only [scanLevelStep]
          by_cases hay : a < y
          · rw [if_pos hay]
            exact ⟨y, rfl, le_refl y⟩
          · rw [if_neg hay]
            exact ⟨a, rfl, le_of_not_lt hay⟩
      obtain ⟨b, hb, hyb⟩ := hsome
      rw [hb] at h
      rw [hxy]
      exact le_trans hyb (foldl_max_acc_le tl b v h)
    · exact ih (scanLevelStep acc (some y)) h x hxtl

/-- Characterization of the scan of `computeGlobalMaxLevel`: zero when no
finite level exists, otherwise the maximum finite level. -/
lemma scanGlobalMax_spec (source : GllSource) :
    (finiteLevels source = [] → scanGlobalMax source = 0) ∧
    (∀ x ∈ finiteLevels source, x ≤ scanGlobalMax source) ∧
    (finiteLevels source ≠ [] → scanGlobalMax source ∈ finiteLevels source) := by
  unfold scanGlobalMax
  rw [foldl_scan_responses]
  rw [show (source.Responses.flatMap Response.Level).filterMap id = finiteLevels source from rfl]
  refine ⟨?_, ?_, ?_⟩
  · intro hempty
    rw [hempty]
    rfl
  · intro x hx
    cases hL : finiteLevels source with
    | nil => rw [hL] at hx; exact absurd hx (List.not_mem_nil x)
    | cons y tl =>
      simp only [List.foldl_cons]
      rw [show scanLevelStep none (some y) = some y from rfl]
      obtain ⟨v, hv⟩ := foldl_max_isSome tl y
      rw [hv, Option.getD_some]
      rw [hL] at hx
      refine foldl_max_ub (y :: tl) none v ?_ x hx
      simp only [List.foldl_cons]
      rw [show scanLevelStep none (some y) = some y from rfl]
      exact hv
  · intro hne
    cases hL : finiteLevels source with
    | nil => exact absurd hL hne
    | cons y tl =>
      simp only [List.foldl_cons]
      rw [show scanLevelStep none (some y) = some y from rfl]
      obtain ⟨v, hv⟩ := foldl_max_isSome tl y
      rw [hv, Option.getD_some]
      rcases foldl_max_mem tl (some y) v hv with hacc | hmem
      · injection hacc with hyv
        rw [← hyv]
        exact List.mem_cons_self y tl
      · exact List.mem_cons_of_mem y hmem

/-- The lookup after clearing an identity finds nothing. -/
lemma lookup_clearGlobalMaxCache (cache : GlobalMaxCache) (sid : ℕ) :
    List.lookup sid (clearGlobalMaxCache cache sid) = none := by
  induction cache with
  | nil => rfl
  | cons hd tl ih =>
    unfold clearGlobalMaxCache at *
    by_cases hh : hd.1 = sid
    · simpa [List.filter, hh] using ih
    · have hne : (hd.1 != sid) = true := by simp [hh]
      simp only [List.filter, hne]
      rw [List.lookup]
      have : (sid == hd.1) = false := by simp [Ne.symm hh]
      rw [this]
      exact ih

/-- C5: on a fresh cache entry `computeGlobalMaxLevel` returns the maximum
finite level across all responses and frequencies (0 when none exists) and
memoizes it; a second call for the same source identity returns the cached
value even if the source data has been replaced in the meantime; after
`clearGlobalMaxCache` the next call rescans the current data. -/
theorem computeGlobalMaxLevel_spec (cache : GlobalMaxCache) (sid : ℕ)
    (source mutated : GllSource) (h : List.lookup sid cache = none) :
    ((computeGlobalMaxLevel cache sid source).1 = scanGlobalMax source ∧
      (finiteLevels source = [] → (computeGlobalMaxLevel cache sid source).1 = 0) ∧
      (∀ x ∈ finiteLevels source, x ≤ (computeGlobalMaxLevel cache sid source).1) ∧
      (finiteLevels source ≠ [] →
        (computeGlobalMaxLevel cache sid source).1 ∈ finiteLevels source)) ∧
    (computeGlobalMaxLevel (computeGlobalMaxLevel cache sid source).2 sid mutated).1 =
      (computeGlobalMaxLevel cache sid source).1 ∧
    (computeGlobalMaxLevel
        (clearGlobalMaxCache (computeGlobalMaxLevel cache sid source).2 sid) sid mutated).1 =
      scanGlobalMax mutated := by
  have hfirst : computeGlobalMaxLevel cache sid source =
      (scanGlobalMax source, (sid, scanGlobalMax source) :: cache) := by
    unfold computeGlobalMaxLevel
    rw [h]
  obtain ⟨hz, hub, hmem⟩ := scanGlobalMax_spec source
  refine ⟨⟨by rw [hfirst], ?_, ?_, ?_⟩, ?_, ?_⟩
  · intro he
    rw [hfirst]
    exact hz he
  · intro x hx
    rw [hfirst]
    exact hub x hx
  · intro hne
    rw [hfirst]
    exact hmem hne
  · rw [hfirst]
    unfold computeGlobalMaxLevel
    rw [show List.lookup sid ((sid, scanGlobalMax source) :: cache) =
        some (scanGlobalMax source) by simp [List.lookup]]
  · rw [hfirst]
    unfold computeGlobalMaxLevel
    rw [lookup_clearGlobalMaxCache]

/-- Witness source with two responses and mixed finite/non-finite levels. -/
def wSourceLevels : GllSource :=
  { Definition := none
    Responses :=
      [ { Frequencies := [], Level := [some (-20), none, some (-5)] }
      , { Frequencies := [], Level := [some (-30), some (-5), none] } ] }

/-- Witness for C5 on an empty cache: the first call scans, the second
call is served from the cache. -/
theorem computeGlobalMaxLevel_spec_witness :
    List.lookup 0 ([] : GlobalMaxCache) = none ∧
      (computeGlobalMaxLevel [] 0 wSourceLevels).1 = scanGlobalMax wSourceLevels ∧
      (computeGlobalMaxLevel (computeGlobalMaxLevel [] 0 wSourceLevels).2 0 cSourceEmpty).1 =
        (computeGlobalMaxLevel [] 0 wSourceLevels).1 := by
  have h := computeGlobalMaxLevel_spec [] 0 wSourceLevels cSourceEmpty rfl
  exact ⟨rfl, h.1.1, h.2.1⟩

/-- C4: for a source with a resolvable grid, `buildFullSphereLevels`
returns `fullParallelCount` rows of `fullMeridianCount` entries; entry
`[p][m]` is the level at the requested frequency index of the response
located at azimuth `m*meridianStep`, parallel `p*parallelStep`, when the
Locator resolves the point and the stored level is finite, and `-100`
otherwise. -/
theorem buildFullSphereLevels_spec (source : GllSource) (g : BalloonGridInfo)
    (f : ℕ) (h : getBalloonGrid source = some g) :
    (buildFullSphereLevels source g f).length = g.fullParallelCount ∧
    (∀ row ∈ buildFullSphereLevels source g f, row.length = g.fullMeridianCount) ∧
    (∀ p m, p < g.fullParallelCount → m < g.fullMeridianCount →
      ((buildFullSphereLevels source g f).get? p).bind (fun row => row.get? m) =
        some (match getResponseWithSymmetry source g ((m : ℚ) * g.meridianStep)
            ((p : ℚ) * g.parallelStep) with
          | some r =>
            match r.Level.get? f with
            | some (some level) => level
            | _ => -100
          | none => -100)) := by
  refine ⟨?_, ?_, ?_⟩
  · simp [buildFullSphereLevels]
  · intro row hrow
    simp only [buildFullSphereLevels, List.mem_map, List.mem_range] at hrow
    obtain ⟨p, hp, hrow⟩ := hrow
    rw [← hrow]
    simp
  · intro p m hp hm
    simp only [buildFullSphereLevels, List.get?_map, List.get?_range hp]
    simp only [Option.map_some', Option.some_bind, List.get?_map, List.get?_range hm,
      Option.map_some']

/-- Witness for C4 on the 10/5-degree grid: resolvable grid, 37 rows. -/
theorem buildFullSphereLevels_spec_witness :
    getBalloonGrid wSourceNone = some wGridNone ∧
      (buildFullSphereLevels wSourceNone wGridNone 0).length = wGridNone.fullParallelCount :=
  ⟨wGridNone_eval, (buildFullSphereLevels_spec wSourceNone wGridNone 0 wGridNone_eval).1⟩

/-- Rounding zero gives zero. -/
lemma jsRound_zero : jsRound 0 = 0 := by
  norm_num [jsRound]

/-- One is at most the clamped count. -/
lemma one_le_toNat_max_one (x : ℤ) : 1 ≤ (max 1 x).toNat := by
  have := toNat_max_one_cast x
  omega

/-- Rounding is exact on naturals. -/
lemma jsRound_natCast (n : ℕ) : jsRound (n : ℚ) = n := by
  unfold jsRound
  rw [Int.floor_eq_iff]
  constructor <;> push_cast <;> linarith

/-- Rounding a nonnegative number is nonnegative. -/
lemma jsRound_nonneg (q : ℚ) (h : 0 ≤ q) : 0 ≤ jsRound q :=
  Int.le_floor.mpr (by push_cast; linarith)

/-- Rounding is monotone. -/
lemma jsRound_mono (a b : ℚ) (h : a ≤ b) : jsRound a ≤ jsRound b :=
  Int.floor_le_floor (by linarith)

/-- The rounded value is at most the argument plus one half. -/
lemma jsRound_le (q : ℚ) : (jsRound q : ℚ) ≤ q + 1 / 2 :=
  Int.floor_le (q + 1 / 2)

/-- JS remainder is the identity below the modulus. -/
lemma jsFmod_eq_self (a b : ℚ) (hb : 0 < b) (h0 : 0 ≤ a) (h1 : a < b) :
    jsFmod a b = a := by
  unfold jsFmod jsTrunc
  rw [if_pos (div_nonneg h0 (le_of_lt hb))]
  rw [show ⌊a / b⌋ = 0 from Int.floor_eq_zero_iff.mpr
    ⟨div_nonneg h0 (le_of_lt hb), (div_lt_one hb).mpr h1⟩]
  simp

/-- JS remainder subtracts one modulus in the second period. -/
lemma jsFmod_sub (a b : ℚ) (hb : 0 < b) (h0 : b ≤ a) (h1 : a < 2 * b) :
    jsFmod a b = a - b := by
  unfold jsFmod jsTrunc
  have hq0 : 0 ≤ a / b := div_nonneg (by linarith) (le_of_lt hb)
  rw [if_pos hq0]
  rw [show ⌊a / b⌋ = 1 from ?_]
  · push_cast
    ring
  · rw [Int.floor_eq_iff]
    constructor
    · push_cast
      rw [le_div_iff hb]
      linarith
    · push_cast
      rw [div_lt_iff hb]
      linarith

/-- Azimuths already in `[0, 360)` are fixed by the normalization. -/
lemma normalizeAzimuth_eq_self (a : ℚ) (h0 : 0 ≤ a) (h1 : a < 360) :
    normalizeAzimuth a = a := by
  unfold normalizeAzimuth
  rw [jsFmod_eq_self a 360 (by norm_num) h0 h1]
  rw [jsFmod_sub (a + 360) 360 (by norm_num) (by linarith) (by linarith)]
  ring

/-- Bounds of the azimuth symmetry folding on normalized azimuths. -/
lemma fold_bounds (sym : ℤ) (a : ℚ) (h0 : 0 ≤ a) (h1 : a < 360) :
    0 ≤ applySymmetryFold sym a ∧
    (sym = 4 → applySymmetryFold sym a = 0) ∧
    (sym = 3 → applySymmetryFold sym a ≤ 90) ∧
    (sym = 1 ∨ sym = 2 → applySymmetryFold sym a ≤ 180) ∧
    (¬ (sym = 1 ∨ sym = 2 ∨ sym = 3 ∨ sym = 4) → applySymmetryFold sym a = a) := by
  refine ⟨?_, ?_, ?_, ?_, ?_⟩ <;>
  · simp only [applySymmetryFold]
    intros
    split_ifs <;> first | rfl | linarith | omega

/-- Full grid descriptor facts used by the pole-identity argument. -/
lemma getBalloonGrid_fields (source : GllSource) (g : BalloonGridInfo)
    (h : getBalloonGrid source = some g) :
    (g.fullMeridianCount : ℤ) = max 1 (jsRound (360 / g.meridianStep)) ∧
    (g.symmetry = 4 → g.meridianCount = 1) ∧
    (g.symmetry = 3 → (g.meridianCount : ℤ) = max 1 (jsRound (90 / g.meridianStep) + 1)) ∧
    (g.symmetry = 1 ∨ g.symmetry = 2 →
      (g.meridianCount : ℤ) = max 1 (jsRound (180 / g.meridianStep) + 1)) ∧
    (¬ (g.symmetry = 1 ∨ g.symmetry = 2 ∨ g.symmetry = 3 ∨ g.symmetry = 4) →
      g.meridianCount = g.fullMeridianCount) ∧
    (g.frontHalfOnly = false → g.parallelCount = g.fullParallelCount) ∧
    (g.fullParallelCount : ℤ) = max 1 (jsRound (180 / g.parallelStep) + 1) ∧
    g.measuredParallelDeg = ((g.parallelCount : ℚ) - 1) * g.parallelStep ∧
    1 ≤ g.parallelCount := by
  unfold getBalloonGrid at h
  split at h
  · exact absurd h (by simp)
  · split at h
    · split at h
      · exact absurd h (by simp)
      · simp only [Option.some.injEq] at h
        subst h
        simp only
        refine ⟨toNat_max_one_cast _, ?_, ?_, ?_, ?_, ?_, toNat_max_one_cast _, ?_, ?_⟩
        · intro h4
          rw [if_pos h4]
        · intro h3
          split_ifs <;> first | exact toNat_max_one_cast _ | omega
        · intro h12
          split_ifs <;> first | exact toNat_max_one_cast _ | tauto | omega
        · intro hnone
          push_neg at hnone
          obtain ⟨h1, h2, h3, h4⟩ := hnone
          split_ifs <;> first | rfl | tauto
        · intro hfh
          rw [hfh]
          simp only [Bool.false_eq_true, if_false]
        · trivial
        · split_ifs <;> exact one_le_toNat_max_one _
    · exact absurd h (by simp)

/-- A full-grid meridian angle `m * meridianStep` is a normalized azimuth. -/
lemma mul_step_bounds (ms : ℚ) (hms : 0 < ms) (m : ℕ) (fullM : ℕ)
    (hfull : (fullM : ℤ) = max 1 (jsRound (360 / ms))) (hm : m < fullM) :
    0 ≤ (m : ℚ) * ms ∧ (m : ℚ) * ms < 360 := by
  constructor
  · exact mul_nonneg (Nat.cast_nonneg m) (le_of_lt hms)
  · rcases Nat.eq_zero_or_pos m with h0 | hpos
    · rw [h0]
      norm_num
    · have hmZ : (m : ℤ) < (fullM : ℤ) := by exact_mod_cast hm
      rw [hfull] at hmZ
      have hposZ : (1 : ℤ) ≤ (m : ℤ) := by exact_mod_cast hpos
      have hR : (m : ℤ) ≤ jsRound (360 / ms) - 1 := by omega
      have hflQ : (jsRound (360 / ms) : ℚ) ≤ 360 / ms + 1 / 2 := jsRound_le _
      have hmQ : (m : ℚ) ≤ (jsRound (360 / ms) : ℚ) - 1 := by exact_mod_cast hR
      have hstep : (m : ℚ) ≤ 360 / ms - 1 / 2 := by linarith
      have hmul := mul_le_mul_of_nonneg_right hstep (le_of_lt hms)
      have hdiv : (360 / ms - 1 / 2) * ms = 360 - ms / 2 := by
        field_simp
        ring
      linarith

/-- The meridian index computed by the Locator for a full-grid meridian
angle is always inside the stored meridian range. -/
lemma meridianIdx_bounds (source : GllSource) (g : BalloonGridInfo)
    (h : getBalloonGrid source = some g) (hms : 0 < g.meridianStep)
    (m : ℕ) (hm : m < g.fullMeridianCount) :
    0 ≤ jsRound (applySymmetryFold g.symmetry ((m : ℚ) * g.meridianStep) / g.meridianStep) ∧
    jsRound (applySymmetryFold g.symmetry ((m : ℚ) * g.meridianStep) / g.meridianStep) <
      (g.meridianCount : ℤ) := by
  obtain ⟨hfm, h4, h3, h12, hdef, _, _, _, _⟩ := getBalloonGrid_fields source g h
  obtain ⟨ha0, ha1⟩ := mul_step_bounds g.meridianStep hms m g.fullMeridianCount hfm hm
  obtain ⟨hf0, hf4, hf3, hf12, hfdef⟩ :=
    fold_bounds g.symmetry ((m : ℚ) * g.meridianStep) ha0 ha1
  have hidx0 : 0 ≤ jsRound (applySymmetryFold g.symmetry ((m : ℚ) * g.meridianStep) /
      g.meridianStep) :=
    jsRound_nonneg _ (div_nonneg hf0 (le_of_lt hms))
  refine ⟨hidx0, ?_⟩
  by_cases hs4 : g.symmetry = 4
  · rw [hf4 hs4, zero_div, jsRound_zero, h4 hs4]
    norm_num
  · by_cases hs3 : g.symmetry = 3
    · have hle : jsRound (applySymmetryFold g.symmetry ((m : ℚ) * g.meridianStep) /
          g.meridianStep) ≤ jsRound (90 / g.meridianStep) :=
        jsRound_mono _ _ (by gcongr; exact hf3 hs3)
      have hmc := h3 hs3
      omega
    · by_cases hs12 : g.symmetry = 1 ∨ g.symmetry = 2
      · have hle : jsRound (applySymmetryFold g.symmetry ((m : ℚ) * g.meridianStep) /
            g.meridianStep) ≤ jsRound (180 / g.meridianStep) :=
          jsRound_mono _ _ (by gcongr; exact hf12 hs12)
        have hmc := h12 hs12
        omega
      · have hnot : ¬ (g.symmetry = 1 ∨ g.symmetry = 2 ∨ g.symmetry = 3 ∨ g.symmetry = 4) := by
          rintro (h1 | h2 | h3 | h4)
          · exact hs12 (Or.inl h1)
          · exact hs12 (Or.inr h2)
          · exact hs3 h3
          · exact hs4 h4
        rw [hfdef hnot]
        rw [mul_div_cancel_right₀ _ (ne_of_gt hms)]
        rw [jsRound_natCast]
        have hmc := hdef hnot
        omega

/-- The front pole is stored at flat index 0 for every meridian. -/
lemma bri_frontPole (m P : ℤ) (fho : Bool) : balloonResponseIndex m 0 P fho = 0 := by
  unfold balloonResponseIndex
  rw [if_pos (Or.inl rfl)]

/-- The back pole of a full sphere is stored at the last parallel index for
every meridian. -/
lemma bri_backPole (m P : ℤ) : balloonResponseIndex m (P - 1) P false = P - 1 := by
  unfold balloonResponseIndex
  rw [if_pos (Or.inr ⟨rfl, rfl⟩)]

/-- C1: for any source with responses and a resolvable grid (steps
positive per the grid invariant), the Locator returns the single stored
front-pole response (`Responses[0]`) at parallel 0 for every full-grid
meridian index, hence `locate(m,0) = locate(m2,0)`; and when the data is
not front-half-only, `locate(m,180) = locate(m2,180)` across all meridian
indices as well. -/
theorem pole_identity (source : GllSource) (g : BalloonGridInfo)
    (h : getBalloonGrid source = some g) (hne : source.Responses ≠ [])
    (hms : 0 < g.meridianStep) (hps : 0 < g.parallelStep) :
    (∀ m : ℕ, m < g.fullMeridianCount →
      getResponseWithSymmetry source g ((m : ℚ) * g.meridianStep) 0 =
        source.Responses.get? 0) ∧
    (g.frontHalfOnly = false →
      ∀ m m2 : ℕ, m < g.fullMeridianCount → m2 < g.fullMeridianCount →
        getResponseWithSymmetry source g ((m : ℚ) * g.meridianStep) 180 =
          getResponseWithSymmetry source g ((m2 : ℚ) * g.meridianStep) 180) := by
  obtain ⟨hfm, _, _, _, _, hpcfull, hfp, hmeas, hpc1⟩ := getBalloonGrid_fields source g h
  have hlen : ¬ source.Responses.length = 0 := by
    simpa [List.length_eq_zero] using hne
  have hmeas0 : 0 ≤ g.measuredParallelDeg := by
    rw [hmeas]
    apply mul_nonneg _ (le_of_lt hps)
    have h1 : (1 : ℚ) ≤ (g.parallelCount : ℚ) := by exact_mod_cast hpc1
    linarith
  constructor
  · intro m hm
    obtain ⟨ha0, ha1⟩ := mul_step_bounds g.meridianStep hms m g.fullMeridianCount hfm hm
    obtain ⟨hidx0, hidxlt⟩ := meridianIdx_bounds source g h hms m hm
    simp only [getResponseWithSymmetry]
    rw [normalizeAzimuth_eq_self _ ha0 ha1]
    rw [if_neg hlen]
    rw [if_neg (by norm_num : ¬((0 : ℚ) < 0 ∨ (180 : ℚ) < (0 : ℚ)))]
    rw [if_neg (by norm_num : ¬(g.frontHalfOnly = true ∧ (90 : ℚ) < (0 : ℚ)))]
    rw [if_neg (not_lt.mpr hmeas0)]
    simp only
    rw [zero_div, jsRound_zero]
    rw [if_neg (by push_neg; exact ⟨hidx0, hidxlt, le_refl 0, by omega⟩)]
    rw [bri_frontPole]
    rw [if_pos ⟨le_refl (0 : ℤ), by omega⟩]
    rfl
  · intro hfho m m2 hm hm2
    have key : ∀ k : ℕ, k < g.fullMeridianCount →
        getResponseWithSymmetry source g ((k : ℚ) * g.meridianStep) 180 =
          (if g.measuredParallelDeg < 180 then
            (if g.symmetry = 2 ∨ g.symmetry = 3 then source.Responses.get? 0 else none)
          else if 0 ≤ (g.parallelCount : ℤ) - 1 ∧
              (g.parallelCount : ℤ) - 1 < (source.Responses.length : ℤ) then
            source.Responses.get? ((g.parallelCount : ℤ) - 1).toNat
          else none) := by
      intro k hk
      obtain ⟨ha0, ha1⟩ := mul_step_bounds g.meridianStep hms k g.fullMeridianCount hfm hk
      obtain ⟨hidx0, hidxlt⟩ := meridianIdx_bounds source g h hms k hk
      simp only [getResponseWithSymmetry]
      rw [normalizeAzimuth_eq_self _ ha0 ha1]
      rw [if_neg hlen]
      rw [if_neg (by norm_num : ¬((180 : ℚ) < 0 ∨ (180 : ℚ) < (180 : ℚ)))]
      rw [if_neg (by simp [hfho] : ¬(g.frontHalfOnly = true ∧ (90 : ℚ) < (180 : ℚ)))]
      by_cases hD : g.measuredParallelDeg < 180
      · rw [if_pos hD]
        by_cases hMir : g.symmetry = 2 ∨ g.symmetry = 3
        · rw [if_pos hMir]
          rw [if_pos (show (180 : ℚ) - 180 ≤ g.measuredParallelDeg by
            norm_num
            exact hmeas0)]
          simp only
          rw [show (180 : ℚ) - 180 = 0 by norm_num]
          rw [zero_div, jsRound_zero]
          rw [if_neg (by push_neg; exact ⟨hidx0, hidxlt, le_refl 0, by omega⟩)]
          rw [bri_frontPole]
          rw [if_pos ⟨le_refl (0 : ℤ), by omega⟩]
          rw [if_pos hD, if_pos hMir]
          rfl
        · rw [if_neg hMir]
          simp only
          rw [if_pos hD, if_neg hMir]
      · rw [if_neg hD]
        simp only
        have hR0 : 0 ≤ jsRound (180 / g.parallelStep) :=
          jsRound_nonneg _ (by positivity)
        have hpcZ : (g.parallelCount : ℤ) = jsRound (180 / g.parallelStep) + 1 := by
          rw [hpcfull hfho, hfp]
          omega
        have hRpc : jsRound (180 / g.parallelStep) = (g.parallelCount : ℤ) - 1 := by
          omega
        rw [if_neg (by push_neg; exact ⟨hidx0, hidxlt, hR0, by omega⟩)]
        rw [hfho, hRpc, bri_backPole]
        rw [if_neg hD]
    rw [key m hm, key m2 hm2]

/-- Witness source for C1: the 10/5-degree full sphere with one response
stored per grid point (664 responses; only the length matters to the
theorem). -/
def wSourcePole : GllSource :=
  { Definition := some { BalloonData := some { AngularResolution := some wAngNone }, OnAxisSpectrum := none }
    Responses := List.replicate 4 { Frequencies := [], Level := [some (-20)] } }

/-- The grid descriptor of the pole-identity witness source. -/
def wGridPole : BalloonGridInfo :=
  { wGridNone with responseCount := 4 }

/-- Evaluation of the grid descriptor on the pole-identity witness. -/
lemma wGridPole_eval : getBalloonGrid wSourcePole = some wGridPole := by
  unfold getBalloonGrid angularResolutionOf wSourcePole wAngNone wGridPole wGridNone
  norm_num [jsRound, symmetryNameOf, show Int.toNat 36 = 36 from rfl,
    show Int.toNat 37 = 37 from rfl, List.replicate]

/-- Witness for C1: on the witness sphere, meridians 0 and 1 both resolve
parallel 0 to the stored front pole. -/
theorem pole_identity_witness :
    getBalloonGrid wSourcePole = some wGridPole ∧
      wSourcePole.Responses ≠ [] ∧
      0 < wGridPole.meridianStep ∧ 0 < wGridPole.parallelStep ∧
      getResponseWithSymmetry wSourcePole wGridPole ((1 : ℚ) * wGridPole.meridianStep) 0 =
        wSourcePole.Responses.get? 0 := by
  have hne : wSourcePole.Responses ≠ [] := by
    unfold wSourcePole
    simp [List.replicate]
  have hms : (0 : ℚ) < wGridPole.meridianStep := by norm_num [wGridPole, wGridNone]
  have hps : (0 : ℚ) < wGridPole.parallelStep := by norm_num [wGridPole, wGridNone]
  refine ⟨wGridPole_eval, hne, hms, hps, ?_⟩
  have h := (pole_identity wSourcePole wGridPole wGridPole_eval hne hms hps).1 1
    (by norm_num [wGridPole, wGridNone])
  simpa using h

/-- Length of a constant-width flat-mapped range. -/
lemma length_flatMap_const {α : Type} (k : ℕ) (f : ℕ → List α)
    (hf : ∀ i, (f i).length = k) : ∀ n, ((List.range n).flatMap f).length = n * k := by
  intro n
  induction n with
  | zero => simp
  | succ n ih =>
    rw [List.range_succ, List.flatMap_append, List.length_append, ih]
    simp [hf n]
    ring

/-- A vertex-position triple has three floats. -/
lemma balloonVertexPosition_length (levels : List (List ℚ)) (P M : ℕ)
    (dmin dbR scale : ℚ) (p m : ℕ) :
    (balloonVertexPosition levels P M dmin dbR scale p m).length = 3 := rfl

/-- A vertex-color triple has three floats. -/
lemma balloonVertexColor_length (levels : List (List ℚ)) (P M : ℕ)
    (dmin dbR : ℚ) (p m : ℕ) :
    (balloonVertexColor levels P M dmin dbR p m).length = 3 := rfl

/-- The wrap column `mIdx = M` duplicates column 0: same normalized level,
hence the same color, and the same cartesian position (azimuth `2π` equals
azimuth 0 under sine and cosine). -/
lemma balloonVertex_wrap (levels : List (List ℚ)) (P M : ℕ) (hM : 1 ≤ M)
    (dmin dbR scale : ℚ) (p : ℕ) :
    balloonVertexPosition levels P M dmin dbR scale p M =
      balloonVertexPosition levels P M dmin dbR scale p 0 ∧
    balloonVertexColor levels P M dmin dbR p M =
      balloonVertexColor levels P M dmin dbR p 0 := by
  have hnorm : balloonVertexNormalized levels P M dmin dbR p M =
      balloonVertexNormalized levels P M dmin dbR p 0 := by
    unfold balloonVertexNormalized
    rw [Nat.mod_self, Nat.zero_mod]
  constructor
  · unfold balloonVertexPosition sphericalToCartesian
    rw [hnorm]
    have hM0 : (M : ℝ) ≠ 0 := Nat.cast_ne_zero.mpr (by omega)
    rw [div_self hM0]
    norm_num [Real.sin_two_pi, Real.cos_two_pi]
  · unfold balloonVertexColor
    rw [hnorm]

/-- C6: for every source with a resolvable grid, the Mesh Assembler
produces exactly `P*(M+1)` vertices (`3*P*(M+1)` position floats and
`3*P*(M+1)` color floats) and `2*(P-1)*M` triangles (`6*(P-1)*M` index
entries), the extra meridian column wrapping back to meridian 0. -/
theorem buildBalloonGeometryData_counts (source : GllSource) (g : BalloonGridInfo)
    (options : BalloonBuildOptions) (h : getBalloonGrid source = some g) :
    ∃ d, buildBalloonGeometryData source options = some d ∧
      d.vertices.length = 3 * (g.fullParallelCount * (g.fullMeridianCount + 1)) ∧
      d.colors.length = 3 * (g.fullParallelCount * (g.fullMeridianCount + 1)) ∧
      d.indices.length = 6 * ((g.fullParallelCount - 1) * g.fullMeridianCount) ∧
      (∀ p, p < g.fullParallelCount →
        balloonVertexPosition (buildFullSphereLevels source g options.frequencyIndex)
            g.fullParallelCount g.fullMeridianCount
            (scanGlobalMax source - options.dbRange) options.dbRange options.scale
            p g.fullMeridianCount =
          balloonVertexPosition (buildFullSphereLevels source g options.frequencyIndex)
            g.fullParallelCount g.fullMeridianCount
            (scanGlobalMax source - options.dbRange) options.dbRange options.scale p 0 ∧
        balloonVertexColor (buildFullSphereLevels source g options.frequencyIndex)
            g.fullParallelCount g.fullMeridianCount
            (scanGlobalMax source - options.dbRange) options.dbRange p g.fullMeridianCount =
          balloonVertexColor (buildFullSphereLevels source g options.frequencyIndex)
            g.fullParallelCount g.fullMeridianCount
            (scanGlobalMax source - options.dbRange) options.dbRange p 0) := by
  have hM1 : 1 ≤ g.fullMeridianCount := by
    obtain ⟨hfm, _⟩ := getBalloonGrid_fields source g h
    omega
  unfold buildBalloonGeometryData
  rw [h]
  simp only
  refine ⟨_, rfl, ?_, ?_, ?_, ?_⟩
  · rw [length_flatMap_const (3 * (g.fullMeridianCount + 1)) _ ?_ g.fullParallelCount]
    · ring
    · intro p
      rw [length_flatMap_const 3 _ (fun m => balloonVertexPosition_length _ _ _ _ _ _ _ _)
        (g.fullMeridianCount + 1)]
      ring
  · rw [length_flatMap_const (3 * (g.fullMeridianCount + 1)) _ ?_ g.fullParallelCount]
    · ring
    · intro p
      rw [length_flatMap_const 3 _ (fun m => balloonVertexColor_length _ _ _ _ _ _ _)
        (g.fullMeridianCount + 1)]
      ring
  · rw [length_flatMap_const (6 * g.fullMeridianCount) _ ?_ (g.fullParallelCount - 1)]
    · ring
    · intro p
      rw [length_flatMap_const 6 _ ?_ g.fullMeridianCount]
      · ring
      · intro m
        rfl
  · intro p _
    exact balloonVertex_wrap _ _ _ hM1 _ _ _ p

/-- Witness for C6 on the 10/5-degree sphere: 37·37 vertex triples and
6·36·36 index entries. -/
theorem buildBalloonGeometryData_counts_witness :
    getBalloonGrid wSourceNone = some wGridNone ∧
      ∃ d, buildBalloonGeometryData wSourceNone
          { frequencyIndex := 0, dbRange := 40, scale := 1 } = some d ∧
        d.vertices.length = 3 * (wGridNone.fullParallelCount * (wGridNone.fullMeridianCount + 1)) := by
  refine ⟨wGridNone_eval, ?_⟩
  obtain ⟨d, hd, hv, -⟩ := buildBalloonGeometryData_counts wSourceNone wGridNone
    { frequencyIndex := 0, dbRange := 40, scale := 1 } wGridNone_eval
  exact ⟨d, hd, hv⟩

/-- C7: `computePolarSlices` enumerates exactly the 36 angles
`0, -10, …, -180, 170, …, 10`; each horizontal entry reads the point at
parallel `|a|`, meridian 90 (`a ≥ 0`) or 270, each vertical entry meridian
0 or 180; and a failed response lookup propagates as `null` (not a `-100`
placeholder). -/
theorem computePolarSlices_spec (source : GllSource) (g : BalloonGridInfo) (f : ℕ)
    (h : getBalloonGrid source = some g) :
    buildPolarAngles 10 = [0, -10, -20, -30, -40, -50, -60, -70, -80, -90, -100, -110,
      -120, -130, -140, -150, -160, -170, -180, 170, 160, 150, 140, 130, 120, 110, 100,
      90, 80, 70, 60, 50, 40, 30, 20, 10] ∧
    (buildPolarAngles 10).length = 36 ∧
    ∃ r, computePolarSlices source f = some r ∧
      r.horizontal.levels = (buildPolarAngles 10).map (fun angle =>
        polarSliceEntry source g f (if 0 ≤ angle then 90 else 270) |angle|) ∧
      r.vertical.levels = (buildPolarAngles 10).map (fun angle =>
        polarSliceEntry source g f (if 0 ≤ angle then 0 else 180) |angle|) ∧
      ∀ meridianDeg parallelDeg,
        getResponseWithSymmetry source g meridianDeg parallelDeg = none →
        polarSliceEntry source g f meridianDeg parallelDeg = none := by
  have hlist : buildPolarAngles 10 = [0, -10, -20, -30, -40, -50, -60, -70, -80, -90,
      -100, -110, -120, -130, -140, -150, -160, -170, -180, 170, 160, 150, 140, 130, 120,
      110, 100, 90, 80, 70, 60, 50, 40, 30, 20, 10] := by
    unfold buildPolarAngles
    norm_num
    rw [show ((18 : ℤ).toNat) = 18 from rfl, show ((17 : ℤ).toNat) = 17 from rfl]
    norm_num [List.range_succ]
  refine ⟨hlist, by rw [hlist]; rfl, ?_⟩
  unfold computePolarSlices
  rw [h]
  simp only
  refine ⟨_, rfl, rfl, rfl, ?_⟩
  intro meridianDeg parallelDeg hnone
  simp [polarSliceEntry, polarRawLevel, hnone]

/-- Witness for C7: the 10/5-degree sphere resolves and the fixed angle
enumeration has 36 entries. -/
theorem computePolarSlices_spec_witness :
    getBalloonGrid wSourceNone = some wGridNone ∧ (buildPolarAngles 10).length = 36 :=
  ⟨wGridNone_eval, (computePolarSlices_spec wSourceNone wGridNone 0 wGridNone_eval).2.1⟩

/-- Angular resolution of the on-axis test source: 90-degree steps, no
symmetry, full sphere. -/
def cAng8 : AngularResolution :=
  { MeridianStep := some 90, ParallelStep := some 90, Symmetry := some 0, FrontHalfOnly := false }

/-- On-axis spectrum with a single-entry Level array. -/
def cOnAxis : OnAxisSpectrum :=
  { definition := some { bands_per_octave := some 1, start_freq := some 100, point_count := some 1 }
    Level := some [some 7] }

/-- Stored response whose Level array is longer than its frequency axis. -/
def cResp8 : Response :=
  { Frequencies := [some 100], Level := [some 3, some 5] }

/-- Source with an on-axis spectrum that matches the response frequency
axis, but whose Level array has no entry at frequency index 1. -/
def cSourceOnAxis : GllSource :=
  { Definition :=
      some
        { BalloonData := some { AngularResolution := some cAng8 }
          OnAxisSpectrum := some cOnAxis }
    Responses := [cResp8] }

/-- The grid descriptor of the on-axis test source. -/
def cGrid8 : BalloonGridInfo :=
  { meridianCount := 4
    parallelCount := 3
    symmetry := 0
    frontHalfOnly := false
    measuredMeridianDeg := 270
    measuredParallelDeg := 180
    meridianStep := 90
    parallelStep := 90
    responseCount := 1
    fullMeridianCount := 4
    fullParallelCount := 3
    symmetryName := "None" }

/-- Grid evaluation on the on-axis test source. -/
lemma cGrid8_eval : getBalloonGrid cSourceOnAxis = some cGrid8 := by
  unfold getBalloonGrid angularResolutionOf cSourceOnAxis cAng8 cGrid8
  norm_num [jsRound, symmetryNameOf, show Int.toNat 4 = 4 from rfl,
    show Int.toNat 3 = 3 from rfl]

/-- The Locator resolves azimuth 90, parallel 0 on the test source to the
single stored response (the front pole). -/
lemma locate8_eval : getResponseWithSymmetry cSourceOnAxis cGrid8 90 0 = some cResp8 := by
  unfold getResponseWithSymmetry cSourceOnAxis cGrid8
  norm_num [normalizeAzimuth, jsFmod, jsTrunc, jsRound, applySymmetryFold,
    balloonResponseIndex]

/-- The reconstructed on-axis frequency axis of the test source is the
single frequency 100. -/
lemma cOnAxisFreqs_eval : onAxisFreqs cSourceOnAxis = some [some (100 : ℝ)] := by
  unfold onAxisFreqs onAxisOf cSourceOnAxis cOnAxis buildLogFrequencies
  norm_num [List.range_succ, Real.rpow_zero, show Int.toNat 1 = 1 from rfl]

/-- The on-axis combination condition holds on the test source. -/
lemma cCanCombine : canCombineOnAxis cSourceOnAxis := by
  have hSF : sampleFreqsOf cSourceOnAxis = [some (100 : ℝ)] := by
    simp [sampleFreqsOf, cSourceOnAxis, cResp8]
  refine ⟨by simp [onAxisOf, cSourceOnAxis], ?_, [some (100 : ℝ)], cOnAxisFreqs_eval,
    by simp [cSourceOnAxis], by rw [hSF], rfl, ?_⟩
  · simp [onAxisLevelList, onAxisOf, cSourceOnAxis, cOnAxis]
  · rw [hSF]
    refine ⟨rfl, ?_⟩
    intro i hi
    have h0 : i = 0 := by simpa using hi
    subst h0
    exact ⟨100, 100, rfl, rfl, by norm_num⟩

/-- The raw slice level at the front pole, frequency index 1, is the
finite value 5. -/
lemma cRaw_eval : polarRawLevel cSourceOnAxis cGrid8 90 0 1 = some (some 5) := by
  unfold polarRawLevel
  rw [locate8_eval]
  simp [cResp8]

/-- The on-axis Level array has no entry at frequency index 1. -/
lemma cOnAxisLevel_none : (onAxisLevelList cSourceOnAxis).get? 1 = none := by
  simp [onAxisLevelList, onAxisOf, cSourceOnAxis, cOnAxis]

/-- The pushed slice entry at the front pole, frequency index 1, is NaN
(`some none`), not the raw level. -/
lemma cEntry_eval : polarSliceEntry cSourceOnAxis cGrid8 1 90 0 = some none := by
  unfold polarSliceEntry
  rw [cRaw_eval]
  simp only
  rw [if_pos cCanCombine, cOnAxisLevel_none]

/-- Counterexample to C8 as stated: on this source the on-axis combination
condition holds even though the on-axis Level array has no entry at the
requested frequency index 1; the raw level at the first polar angle is the
finite 5, yet `computePolarSlices` reports NaN (`some none`) for it rather
than the raw level unmodified. -/
theorem onAxisCombine_counterexample :
    canCombineOnAxis cSourceOnAxis ∧
    (onAxisLevelList cSourceOnAxis).get? 1 = none ∧
    getBalloonGrid cSourceOnAxis = some cGrid8 ∧
    polarRawLevel cSourceOnAxis cGrid8 90 0 1 = some (some 5) ∧
    polarSliceEntry cSourceOnAxis cGrid8 1 90 0 = some none ∧
    ∃ r, computePolarSlices cSourceOnAxis 1 = some r ∧
      r.horizontal.levels.get? 0 = some (some none) := by
  refine ⟨cCanCombine, cOnAxisLevel_none, cGrid8_eval, cRaw_eval, cEntry_eval, ?_⟩
  unfold computePolarSlices
  rw [cGrid8_eval]
  simp only
  refine ⟨_, rfl, ?_⟩
  rw [List.get?_map]
  rw [show (buildPolarAngles 10).get? 0 = some (0 : ℚ) from by
    unfold buildPolarAngles
    norm_num]
  simp only [Option.map_some']
  norm_num
  exact cEntry_eval

/-- C8 (amended): the combination condition of `computePolarSlices` is
exactly: on-axis spectrum present with a nonempty Level array, a
reconstructible frequency axis of the same length as the first response's
frequencies, matching element-wise within relative tolerance `1e-3` — the
presence of an on-axis Level entry at the requested frequency index is
*not* part of the condition.  When it holds, a finite raw level is summed
with the on-axis entry at that index, which is NaN when that entry is
missing or non-finite; when it fails, raw levels (or null) pass through
unmodified. -/
theorem onAxisCombine_spec (source : GllSource) (g : BalloonGridInfo) (f : ℕ)
    (h : getBalloonGrid source = some g) :
    (canCombineOnAxis source ↔
      (onAxisOf source ≠ none ∧ 0 < (onAxisLevelList source).length ∧
        ∃ freqs, onAxisFreqs source = some freqs ∧ source.Responses ≠ [] ∧
          (sampleFreqsOf source).length = freqs.length ∧
          frequenciesMatch (sampleFreqsOf source) freqs)) ∧
    (∀ meridianDeg parallelDeg x,
      polarRawLevel source g meridianDeg parallelDeg f = some (some x) →
      (canCombineOnAxis source →
        polarSliceEntry source g f meridianDeg parallelDeg =
          some (match (onAxisLevelList source).get? f with
                | some (some y) => some (x + y)
                | _ => none)) ∧
      (¬ canCombineOnAxis source →
        polarSliceEntry source g f meridianDeg parallelDeg = some (some x))) ∧
    (∀ meridianDeg parallelDeg,
      polarRawLevel source g meridianDeg parallelDeg f = some none →
      polarSliceEntry source g f meridianDeg parallelDeg = some none) ∧
    (∀ meridianDeg parallelDeg,
      polarRawLevel source g meridianDeg parallelDeg f = none →
      polarSliceEntry source g f meridianDeg parallelDeg = none) := by
  refine ⟨?_, ?_, ?_, ?_⟩
  · constructor
    · rintro ⟨a, b, freqs, c, d, e, -, hmatch⟩
      exact ⟨a, b, freqs, c, d, e, hmatch⟩
    · rintro ⟨a, b, freqs, c, d, e, hmatch⟩
      exact ⟨a, b, freqs, c, d, e, rfl, hmatch⟩
  · intro meridianDeg parallelDeg x hraw
    constructor
    · intro hcc
      unfold polarSliceEntry
      rw [hraw]
      simp only
      rw [if_pos hcc]
    · intro hcc
      unfold polarSliceEntry
      rw [hraw]
      simp only
      rw [if_neg hcc]
  · intro meridianDeg parallelDeg hraw
    unfold polarSliceEntry
    rw [hraw]
  · intro meridianDeg parallelDeg hraw
    unfold polarSliceEntry
    rw [hraw]

/-- Witness for C8 (amended): on the test source the combination applies
and produces the on-axis-shifted entry form. -/
theorem onAxisCombine_spec_witness :
    getBalloonGrid cSourceOnAxis = some cGrid8 ∧ canCombineOnAxis cSourceOnAxis ∧
      polarSliceEntry cSourceOnAxis cGrid8 1 90 0 =
        some (match (onAxisLevelList cSourceOnAxis).get? 1 with
              | some (some y) => some ((5 : ℚ) + y)
              | _ => none) :=
  ⟨cGrid8_eval, cCanCombine,
    ((onAxisCombine_spec cSourceOnAxis cGrid8 1 cGrid8_eval).2.1 90 0 5 cRaw_eval).1
      cCanCombine⟩

end Gll
